import Mathlib

/-!
Shallow embedding of the Minaret azan scheduler
(`custom_components/azan/__init__.py`): the daily prayer table, the
dedup guard, the playback state and the single-timer scheduling loop.

Datetimes are wall-clock minutes paired with an optional UTC offset
(`none` models a timezone-naive Python `datetime`; Python compares two
aware datetimes by their absolute instants).  Armed host timers
(`async_track_point_in_time`) are modelled as lists of timer records,
each carrying the handle id that the per-entry store keeps in
`unsub_timer` / `playback_reset_unsub`; cancelling a handle removes the
timers with that id, and a fired timer is removed from the list before
its callback body runs.  External service calls (media player / notify)
are modelled by a boolean failure flag plus the `dispatched` and `file`
fields of `PlayOut`.  The claim-irrelevant `is_downloading` flag and the
sensor-update notifications are omitted.
-/

structure DT where
  wall : Int
  tz : Option Int
deriving DecidableEq

structure Aware where
  wall : Int
  tz : Int
deriving DecidableEq

/-- `datetime.replace(tzinfo=localTz)` on a naive datetime; identity on
an aware one (mirrors lines 481-482 and 507-508 of the source). -/
def DT.normalize (t : DT) (localTz : Int) : Aware :=
  ⟨t.wall, t.tz.getD localTz⟩

/-- The absolute instant of an aware datetime (wall clock minus offset):
Python compares aware datetimes by this value. -/
def Aware.instant (a : Aware) : Int := a.wall - a.tz

def Aware.subMinutes (a : Aware) (m : Int) : Aware := ⟨a.wall - m, a.tz⟩

def Aware.addMinutes (a : Aware) (m : Int) : Aware := ⟨a.wall + m, a.tz⟩

structure Prayer where
  name : String
  time : DT
  enabled : Bool
deriving DecidableEq

/-- `coordinator.data`: today's prayer list and the played-today set. -/
structure CoordData where
  prayers : List Prayer
  played_today : List String
deriving DecidableEq

inductive PlaybackMode where
  | mediaPlayer
  | androidVlc
deriving DecidableEq

structure Config where
  playback_mode : PlaybackMode
  media_player : Option String
  notify_service : Option String
  offset_minutes : Int
deriving DecidableEq

/-- What the armed wake-up timer's callback is bound to: either
`_prayer_callback` closed over a prayer name, or `_midnight_refresh`. -/
inductive WakeBinding where
  | prayerCb (name : String)
  | midnightRefresh
deriving DecidableEq

structure WakeTimer where
  id : Nat
  fireAt : Aware
  binding : WakeBinding
deriving DecidableEq

structure ResetTimer where
  id : Nat
  fireAt : Aware
  name : String
deriving DecidableEq

/-- The per-entry store dict set up in `async_setup_entry`. -/
structure Store where
  data : Option CoordData
  is_playing : Bool
  currently_playing : Option String
  audio_file : Option String
  fajr_audio_file : Option String
  unsub_timer : Option Nat
  playback_reset_unsub : Option Nat
deriving DecidableEq

/-- The store together with the host's physically armed timers. -/
structure Sys where
  store : Store
  armedWake : List WakeTimer
  armedReset : List ResetTimer
  nextId : Nat
deriving DecidableEq

-- Scheduling (`_schedule_next_prayer`, lines 451-531)

/-- `prayer_time - timedelta(minutes=offset)` after tz normalization. -/
def targetOf (p : Prayer) (offset : Int) (localTz : Int) : Aware :=
  (p.time.normalize localTz).subMinutes offset

/-- The loop filter of `_schedule_next_prayer` (lines 474-486):
enabled, not yet played, and target time still in the future. -/
def eligible (cfg : Config) (d : CoordData) (now : Aware) (p : Prayer) : Bool :=
  p.enabled && decide (p.name ∉ d.played_today) &&
    decide (now.instant < (targetOf p cfg.offset_minutes now.tz).instant)

/-- First eligible prayer in list order (the loop breaks on first hit). -/
def find_next_prayer (cfg : Config) (d : CoordData) (now : Aware) : Option Prayer :=
  d.prayers.find? (eligible cfg d now)

/-- `(now + timedelta(days=1)).replace(hour=0, minute=1, second=0)`:
the calendar day of `now + 1 day` (Int `/` by a positive literal is
floor division, Python's day rule), at one minute past midnight. -/
def rolloverTime (now : Aware) : Aware :=
  ⟨(now.wall + 1440) / 1440 * 1440 + 1, now.tz⟩

/-- Lines 458-462: cancel an existing wake-up timer and clear its handle. -/
def cancelWake (s : Sys) : Sys :=
  match s.store.unsub_timer with
  | none => s
  | some i =>
    { s with store := { s.store with unsub_timer := none },
             armedWake := s.armedWake.filter (fun t => t.id != i) }

/-- `store["unsub_timer"] = async_track_point_in_time(...)`. -/
def armWake (s : Sys) (t0 : Aware) (b : WakeBinding) : Sys :=
  { s with store := { s.store with unsub_timer := some s.nextId },
           armedWake := s.armedWake ++ [⟨s.nextId, t0, b⟩],
           nextId := s.nextId + 1 }

def schedule_next_prayer (cfg : Config) (now : Aware) (s : Sys) : Sys :=
  match (cancelWake s).store.data with
  | none => cancelWake s
  | some d =>
    match find_next_prayer cfg d now with
    | some p =>
      armWake (cancelWake s) (targetOf p cfg.offset_minutes now.tz)
        (WakeBinding.prayerCb p.name)
    | none => armWake (cancelWake s) (rolloverTime now) WakeBinding.midnightRefresh

-- Playback (`_play_azan`, lines 259-396)

/-- Lines 267-273: the dedup guard. `none` = early return (duplicate);
`some` = proceed, with the name marked for a real prayer. -/
def dedupStep (name : String) (s : Sys) : Option Sys :=
  if name = "Test" then some s
  else
    match s.store.data with
    | none => some s
    | some d =>
      if name ∈ d.played_today then none
      else
        some { s with store := { s.store with
                 data := some { d with played_today := name :: d.played_today } } }

/-- Lines 278-281: pick the Fajr file when the prayer is Fajr and a Fajr
file is stored, the general azan file otherwise. -/
def selectAudio (st : Store) (name : String) : Option String :=
  match st.fajr_audio_file with
  | some g => if name = "Fajr" then some g else st.audio_file
  | none => st.audio_file

/-- Lines 307-309: mark as playing before the service call is issued. -/
def setPlaying (s : Sys) (name : String) : Sys :=
  { s with store := { s.store with is_playing := true, currently_playing := some name } }

/-- Lines 369-370: the exception handler's state cleanup. -/
def clearPlaying (s : Sys) : Sys :=
  { s with store := { s.store with is_playing := false, currently_playing := none } }

/-- Lines 386-388: cancel the previously armed reset timer. -/
def cancelReset (s : Sys) : Sys :=
  match s.store.playback_reset_unsub with
  | none => s
  | some i => { s with armedReset := s.armedReset.filter (fun t => t.id != i) }

/-- Lines 390-392: arm the 5-minute reset timer bound to the name. -/
def armReset (s : Sys) (now : Aware) (name : String) : Sys :=
  { s with store := { s.store with playback_reset_unsub := some s.nextId },
           armedReset := s.armedReset ++ [⟨s.nextId, now.addMinutes 5, name⟩],
           nextId := s.nextId + 1 }

/-- Result of one `_play_azan` call: final system state, whether the
external playback call was dispatched, and with which audio file. -/
structure PlayOut where
  sys : Sys
  dispatched : Bool
  file : Option String
deriving DecidableEq

/-- `_play_azan(hass, entry, prayer_name)`.  `ex` models
`os.path.exists`; `fail` models the external service call raising. -/
def play_azan (cfg : Config) (ex : String → Bool) (fail : Bool) (now : Aware)
    (name : String) (s : Sys) : PlayOut :=
  match dedupStep name s with
  | none => ⟨s, false, none⟩
  | some s1 =>
    match selectAudio s1.store name with
    | none => ⟨s1, false, none⟩
    | some f =>
      if ex f then
        match cfg.playback_mode with
        | PlaybackMode.mediaPlayer =>
          match cfg.media_player with
          | none => ⟨setPlaying s1 name, false, none⟩
          | some _ =>
            if fail then ⟨clearPlaying (setPlaying s1 name), true, some f⟩
            else
              ⟨schedule_next_prayer cfg now
                  (armReset (cancelReset (setPlaying s1 name)) now name),
                true, some f⟩
        | PlaybackMode.androidVlc =>
          match cfg.notify_service with
          | none => ⟨setPlaying s1 name, false, none⟩
          | some _ =>
            if fail then ⟨clearPlaying (setPlaying s1 name), true, some f⟩
            else
              ⟨schedule_next_prayer cfg now
                  (armReset (cancelReset (setPlaying s1 name)) now name),
                true, some f⟩
      else ⟨s1, false, none⟩

/-- The entity checks of lines 320-323 and 336-339: whether the
configured playback mode has its target entity set. -/
def sinkConfigured (cfg : Config) : Bool :=
  match cfg.playback_mode with
  | PlaybackMode.mediaPlayer => cfg.media_player.isSome
  | PlaybackMode.androidVlc => cfg.notify_service.isSome

-- Stop (`_stop_playback`, lines 398-445): state effect only; the
-- external stop call and sensor update touch no scheduler state.

def stop_playback (s : Sys) : Sys :=
  { s with store := { s.store with is_playing := false, currently_playing := none } }

/-- `_reset_playing` (lines 376-384): clears the playing state only if
the bound prayer name is still the one currently playing. -/
def reset_playing (name : String) (st : Store) : Store :=
  if st.currently_playing = some name then
    { st with is_playing := false, currently_playing := none }
  else st

/-- A physically armed reset timer fires: it is consumed, then its
callback body runs. -/
def fireReset (i : Nat) (s : Sys) : Sys :=
  match s.armedReset.find? (fun t => t.id == i) with
  | none => s
  | some t =>
    { s with armedReset := s.armedReset.filter (fun u => u.id != i),
             store := reset_playing t.name s.store }

/-- `_prayer_callback` (lines 517-527). -/
def prayer_callback (cfg : Config) (ex : String → Bool) (fail : Bool) (now : Aware)
    (name : String) (s : Sys) : Sys :=
  match s.store.data with
  | some d =>
    if name ∈ d.played_today then schedule_next_prayer cfg now s
    else (play_azan cfg ex fail now name s).sys
  | none => (play_azan cfg ex fail now name s).sys

/-- `coordinator.data` being replaced by a completed refresh task. -/
def setData (s : Sys) (nd : Option CoordData) : Sys :=
  { s with store := { s.store with data := nd } }

/-- A physically armed wake-up timer fires.  A `midnightRefresh` binding
runs `_midnight_refresh` (lines 495-499): it creates the refresh task
and reschedules at once; the refresh task replaces `coordinator.data`
with `nd` when it completes. -/
def fireWake (cfg : Config) (ex : String → Bool) (fail : Bool) (nd : Option CoordData)
    (now : Aware) (i : Nat) (s : Sys) : Sys :=
  match s.armedWake.find? (fun t => t.id == i) with
  | none => s
  | some t =>
    match t.binding with
    | WakeBinding.prayerCb name =>
      prayer_callback cfg ex fail now name
        { s with armedWake := s.armedWake.filter (fun u => u.id != i) }
    | WakeBinding.midnightRefresh =>
      setData
        (schedule_next_prayer cfg now
          { s with armedWake := s.armedWake.filter (fun u => u.id != i) }) nd

/-- The `refresh_times` service (lines 547-552): refresh the table,
then reschedule. -/
def refresh_times (cfg : Config) (nd : Option CoordData) (now : Aware) (s : Sys) : Sys :=
  schedule_next_prayer cfg now (setData s nd)

/-- The externally drivable operations on one schedule instance. -/
inductive Op where
  | trigger (name : String) (ex : String → Bool) (fail : Bool) (now : Aware)
  | stop
  | refresh (nd : Option CoordData) (now : Aware)
  | audioReady (a f : Option String)
  | wakeFire (i : Nat) (ex : String → Bool) (fail : Bool) (nd : Option CoordData) (now : Aware)
  | resetFire (i : Nat)

def stepOp (cfg : Config) (s : Sys) : Op → Sys
  | Op.trigger name ex fail now => (play_azan cfg ex fail now name s).sys
  | Op.stop => stop_playback s
  | Op.refresh nd now => refresh_times cfg nd now s
  | Op.audioReady a f =>
      { s with store := { s.store with audio_file := a, fajr_audio_file := f } }
  | Op.wakeFire i ex fail nd now => fireWake cfg ex fail nd now i s
  | Op.resetFire i => fireReset i s

def runOps (cfg : Config) (ops : List Op) (s : Sys) : Sys :=
  ops.foldl (stepOp cfg) s

/-- The store as initialized in `async_setup_entry` (lines 58-67), with
the coordinator's first refresh already delivered. -/
def initStore (d0 : Option CoordData) : Store :=
  ⟨d0, false, none, none, none, none, none⟩

/-- Setup ends with `_schedule_next_prayer` (line 115). -/
def initSys (cfg : Config) (d0 : Option CoordData) (now : Aware) : Sys :=
  schedule_next_prayer cfg now ⟨initStore d0, [], [], 0⟩

-- Invariants

/-- Every physically armed wake-up timer is the one referenced by the
stored handle, and there is at most one. -/
def wakeInv (s : Sys) : Prop :=
  s.armedWake.length ≤ 1 ∧ ∀ t ∈ s.armedWake, s.store.unsub_timer = some t.id

def resetInv (s : Sys) : Prop :=
  s.armedReset.length ≤ 1 ∧ ∀ t ∈ s.armedReset, s.store.playback_reset_unsub = some t.id

def handleInv (s : Sys) : Prop := wakeInv s ∧ resetInv s

def atMostOneTimer (s : Sys) : Prop :=
  s.armedWake.length ≤ 1 ∧ s.armedReset.length ≤ 1

-- Concrete fixtures for witnesses, counterexamples and bug traces.
-- Wall clocks are minutes after local midnight of day 0, local zone
-- offset 0; e.g. 05:00 is 300.

def exYes : String → Bool := fun _ => true

def cfgA : Config := ⟨PlaybackMode.mediaPlayer, some "media_player.den", none, 10⟩

/-- Scenario A table: Fajr 05:00 and Dhuhr 12:00, both enabled, naive
times, nothing played. -/
def tableA : CoordData :=
  ⟨[⟨"Fajr", ⟨300, none⟩, true⟩, ⟨"Dhuhr", ⟨720, none⟩, true⟩], []⟩

def nowA : Aware := ⟨240, 0⟩

def sysA : Sys := ⟨⟨some tableA, false, none, some "azan.mp3", none, none, none⟩, [], [], 0⟩

/-- Scenario C table: both prayers already played. -/
def tableC : CoordData :=
  ⟨[⟨"Fajr", ⟨300, none⟩, true⟩, ⟨"Dhuhr", ⟨720, none⟩, true⟩], ["Fajr", "Dhuhr"]⟩

def nowC : Aware := ⟨1380, 0⟩

def sysC : Sys := ⟨⟨some tableC, false, none, some "azan.mp3", none, none, none⟩, [], [], 0⟩

/-- Scenario E: wake-up timer 7 armed and bound to Maghrib 18:05;
Isha 19:30 still ahead. -/
def tableE : CoordData :=
  ⟨[⟨"Maghrib", ⟨1085, none⟩, true⟩, ⟨"Isha", ⟨1170, none⟩, true⟩], []⟩

def sysE : Sys :=
  ⟨⟨some tableE, false, none, some "azan.mp3", none, some 7, none⟩,
    [⟨7, ⟨1085, 0⟩, WakeBinding.prayerCb "Maghrib"⟩], [], 8⟩

def nowE : Aware := ⟨1085, 0⟩

/-- Media-player mode with no media player entity configured. -/
def cfgNoMp : Config := ⟨PlaybackMode.mediaPlayer, none, none, 0⟩

/-- Android-VLC mode with a notify service configured. -/
def cfgV : Config := ⟨PlaybackMode.androidVlc, none, some "mobile_app_phone", 10⟩

def sysT : Sys := ⟨⟨some ⟨[], []⟩, false, none, some "azan.mp3", none, none, none⟩, [], [], 0⟩

/-- Azan playing with its 5-minute reset timer (id 3) armed. -/
def sysR : Sys :=
  ⟨⟨some tableC, true, some "Dhuhr", some "azan.mp3", none, none, some 3⟩,
    [], [⟨3, ⟨725, 0⟩, "Dhuhr"⟩], 4⟩

/-- Store playing Isha while a stale reset timer bound to Maghrib (id 3)
is still armed. -/
def sysStale : Sys :=
  ⟨⟨some tableE, true, some "Isha", some "azan.mp3", none, none, some 5⟩,
    [], [⟨3, ⟨1090, 0⟩, "Maghrib"⟩], 6⟩

/-- Both a general and a Fajr audio file stored. -/
def sysF : Sys :=
  ⟨⟨some tableA, false, none, some "azan.mp3", some "fajr_azan.mp3", none, none⟩,
    [], [], 0⟩

-- Helper lemmas

/-- `List.find?` returns the first match: the list splits around the hit
and everything before it fails the predicate. -/
theorem find_first {α : Type} (p : α → Bool) :
    ∀ (l : List α) (a : α), l.find? p = some a →
      ∃ l1 l2, l = l1 ++ a :: l2 ∧ p a = true ∧ ∀ b ∈ l1, p b = false := by
  intro l
  induction l with
  | nil => intro a h; simp [List.find?] at h
  | cons x xs ih =>
    intro a h
    by_cases hx : p x = true
    · rw [List.find?_cons_of_pos _ hx] at h
      obtain rfl : x = a := by injection h
      exact ⟨[], xs, rfl, hx, by intro b hb; simp at hb⟩
    · rw [List.find?_cons_of_neg _ hx] at h
      obtain ⟨l1, l2, hsplit, hpa, hprev⟩ := ih a h
      refine ⟨x :: l1, l2, by rw [hsplit]; rfl, hpa, ?_⟩
      intro b hb
      rcases List.mem_cons.mp hb with rfl | hb1
      · exact Bool.not_eq_true _ ▸ (by simpa using hx)
      · exact hprev b hb1

theorem cancelWake_unsub (s : Sys) : (cancelWake s).store.unsub_timer = none := by
  unfold cancelWake
  cases h : s.store.unsub_timer with
  | none => simpa using h
  | some i => rfl

theorem cancelWake_frame (s : Sys) :
    (cancelWake s).armedReset = s.armedReset
  ∧ (cancelWake s).store.playback_reset_unsub = s.store.playback_reset_unsub
  ∧ (cancelWake s).nextId = s.nextId
  ∧ (cancelWake s).store.data = s.store.data
  ∧ (cancelWake s).store.is_playing = s.store.is_playing
  ∧ (cancelWake s).store.currently_playing = s.store.currently_playing
  ∧ (cancelWake s).store.audio_file = s.store.audio_file
  ∧ (cancelWake s).store.fajr_audio_file = s.store.fajr_audio_file := by
  unfold cancelWake
  cases s.store.unsub_timer <;> simp

theorem cancelWake_wake_nil (s : Sys) (h : wakeInv s) : (cancelWake s).armedWake = [] := by
  unfold cancelWake
  cases hu : s.store.unsub_timer with
  | none =>
    cases hl : s.armedWake with
    | nil => rfl
    | cons t ts =>
      have := h.2 t (by rw [hl]; exact List.mem_cons_self t ts)
      rw [hu] at this
      exact absurd this (by simp)
  | some i =>
    simp only []
    apply List.filter_eq_nil_iff.mpr
    intro t ht
    have := h.2 t ht
    rw [hu] at this
    have hid : t.id = i := by injection this.symm
    simp [hid]

theorem cancelReset_frame (s : Sys) :
    (cancelReset s).armedWake = s.armedWake
  ∧ (cancelReset s).store = s.store
  ∧ (cancelReset s).nextId = s.nextId := by
  unfold cancelReset
  cases s.store.playback_reset_unsub <;> simp

theorem cancelReset_reset_nil (s : Sys) (h : resetInv s) :
    (cancelReset s).armedReset = [] := by
  unfold cancelReset
  cases hu : s.store.playback_reset_unsub with
  | none =>
    cases hl : s.armedReset with
    | nil => rfl
    | cons t ts =>
      have := h.2 t (by rw [hl]; exact List.mem_cons_self t ts)
      rw [hu] at this
      exact absurd this (by simp)
  | some i =>
    simp only []
    apply List.filter_eq_nil_iff.mpr
    intro t ht
    have := h.2 t ht
    rw [hu] at this
    have hid : t.id = i := by injection this.symm
    simp [hid]

theorem wakeInv_congr (s s' : Sys) (h1 : s'.armedWake = s.armedWake)
    (h2 : s'.store.unsub_timer = s.store.unsub_timer) (h : wakeInv s) : wakeInv s' := by
  unfold wakeInv at *
  rw [h1, h2]
  exact h

theorem resetInv_congr (s s' : Sys) (h1 : s'.armedReset = s.armedReset)
    (h2 : s'.store.playback_reset_unsub = s.store.playback_reset_unsub)
    (h : resetInv s) : resetInv s' := by
  unfold resetInv at *
  rw [h1, h2]
  exact h

theorem handleInv_congr (s s' : Sys) (hw : s'.armedWake = s.armedWake)
    (hr : s'.armedReset = s.armedReset)
    (hu : s'.store.unsub_timer = s.store.unsub_timer)
    (hp : s'.store.playback_reset_unsub = s.store.playback_reset_unsub)
    (h : handleInv s) : handleInv s' :=
  ⟨wakeInv_congr s s' hw hu h.1, resetInv_congr s s' hr hp h.2⟩

theorem armWake_spec (s : Sys) (t0 : Aware) (b : WakeBinding) :
    (armWake s t0 b).armedWake = s.armedWake ++ [⟨s.nextId, t0, b⟩]
  ∧ (armWake s t0 b).store.unsub_timer = some s.nextId
  ∧ (armWake s t0 b).armedReset = s.armedReset
  ∧ (armWake s t0 b).store.playback_reset_unsub = s.store.playback_reset_unsub
  ∧ (armWake s t0 b).store.data = s.store.data
  ∧ (armWake s t0 b).store.is_playing = s.store.is_playing
  ∧ (armWake s t0 b).store.currently_playing = s.store.currently_playing
  ∧ (armWake s t0 b).store.audio_file = s.store.audio_file
  ∧ (armWake s t0 b).store.fajr_audio_file = s.store.fajr_audio_file := by
  unfold armWake
  simp

/-- `_schedule_next_prayer` with a populated table reduces to cancel
followed by arming for the first eligible prayer or the rollover. -/
theorem schedule_eq_arm (cfg : Config) (now : Aware) (s : Sys) (d : CoordData)
    (hd : s.store.data = some d) :
    schedule_next_prayer cfg now s =
      match find_next_prayer cfg d now with
      | some p =>
        armWake (cancelWake s) (targetOf p cfg.offset_minutes now.tz)
          (WakeBinding.prayerCb p.name)
      | none => armWake (cancelWake s) (rolloverTime now) WakeBinding.midnightRefresh := by
  unfold schedule_next_prayer
  have hd1 : (cancelWake s).store.data = some d := by
    rw [(cancelWake_frame s).2.2.2.1, hd]
  rw [hd1]

theorem schedule_frame (cfg : Config) (now : Aware) (s : Sys) :
    (schedule_next_prayer cfg now s).armedReset = s.armedReset
  ∧ (schedule_next_prayer cfg now s).store.playback_reset_unsub
      = s.store.playback_reset_unsub
  ∧ (schedule_next_prayer cfg now s).store.data = s.store.data
  ∧ (schedule_next_prayer cfg now s).store.is_playing = s.store.is_playing
  ∧ (schedule_next_prayer cfg now s).store.currently_playing
      = s.store.currently_playing
  ∧ (schedule_next_prayer cfg now s).store.audio_file = s.store.audio_file
  ∧ (schedule_next_prayer cfg now s).store.fajr_audio_file
      = s.store.fajr_audio_file := by
  have hc := cancelWake_frame s
  cases hd : s.store.data with
  | none =>
    have hd1 : (cancelWake s).store.data = none := by rw [hc.2.2.2.1, hd]
    unfold schedule_next_prayer
    rw [hd1]
    exact ⟨hc.1, hc.2.1, hd1, hc.2.2.2.2.1, hc.2.2.2.2.2.1,
      hc.2.2.2.2.2.2.1, hc.2.2.2.2.2.2.2⟩
  | some d =>
    rw [schedule_eq_arm cfg now s d hd]
    have hcd : (cancelWake s).store.data = some d := hc.2.2.2.1.trans hd
    cases find_next_prayer cfg d now with
    | some p =>
      have ha := armWake_spec (cancelWake s) (targetOf p cfg.offset_minutes now.tz)
        (WakeBinding.prayerCb p.name)
      exact ⟨ha.2.2.1.trans hc.1, ha.2.2.2.1.trans hc.2.1,
        ha.2.2.2.2.1.trans hcd, ha.2.2.2.2.2.1.trans hc.2.2.2.2.1,
        ha.2.2.2.2.2.2.1.trans hc.2.2.2.2.2.1,
        ha.2.2.2.2.2.2.2.1.trans hc.2.2.2.2.2.2.1,
        ha.2.2.2.2.2.2.2.2.trans hc.2.2.2.2.2.2.2⟩
    | none =>
      have ha := armWake_spec (cancelWake s) (rolloverTime now) WakeBinding.midnightRefresh
      exact ⟨ha.2.2.1.trans hc.1, ha.2.2.2.1.trans hc.2.1,
        ha.2.2.2.2.1.trans hcd, ha.2.2.2.2.2.1.trans hc.2.2.2.2.1,
        ha.2.2.2.2.2.2.1.trans hc.2.2.2.2.2.1,
        ha.2.2.2.2.2.2.2.1.trans hc.2.2.2.2.2.2.1,
        ha.2.2.2.2.2.2.2.2.trans hc.2.2.2.2.2.2.2⟩

/-- Under the handle invariant the freshly armed wake-up timer is the
only one. -/
theorem schedule_armed (cfg : Config) (now : Aware) (s : Sys) (d : CoordData)
    (hd : s.store.data = some d) (hinv : handleInv s) :
    (schedule_next_prayer cfg now s).armedWake =
      (match find_next_prayer cfg d now with
       | some p =>
         [⟨s.nextId, targetOf p cfg.offset_minutes now.tz, WakeBinding.prayerCb p.name⟩]
       | none => [⟨s.nextId, rolloverTime now, WakeBinding.midnightRefresh⟩])
  ∧ (schedule_next_prayer cfg now s).store.unsub_timer = some s.nextId := by
  have hnil := cancelWake_wake_nil s hinv.1
  have hnext := (cancelWake_frame s).2.2.1
  rw [schedule_eq_arm cfg now s d hd]
  cases find_next_prayer cfg d now with
  | some p =>
    have ha := armWake_spec (cancelWake s) (targetOf p cfg.offset_minutes now.tz)
      (WakeBinding.prayerCb p.name)
    constructor
    · rw [ha.1, hnil, hnext]; rfl
    · rw [ha.2.1, hnext]
  | none =>
    have ha := armWake_spec (cancelWake s) (rolloverTime now) WakeBinding.midnightRefresh
    constructor
    · rw [ha.1, hnil, hnext]; rfl
    · rw [ha.2.1, hnext]

theorem schedule_inv (cfg : Config) (now : Aware) (s : Sys) (h : handleInv s) :
    handleInv (schedule_next_prayer cfg now s) := by
  have hc := cancelWake_frame s
  have hnil := cancelWake_wake_nil s h.1
  have hreset : resetInv (cancelWake s) := resetInv_congr s _ hc.1 hc.2.1 h.2
  cases hd : s.store.data with
  | none =>
    have hd1 : (cancelWake s).store.data = none := by rw [hc.2.2.2.1, hd]
    unfold schedule_next_prayer
    rw [hd1]
    exact ⟨⟨by rw [hnil]; simp, by rw [hnil]; simp⟩, hreset⟩
  | some d =>
    rw [schedule_eq_arm cfg now s d hd]
    have key : ∀ (t0 : Aware) (b : WakeBinding),
        handleInv (armWake (cancelWake s) t0 b) := by
      intro t0 b
      have ha := armWake_spec (cancelWake s) t0 b
      constructor
      · constructor
        · rw [ha.1, hnil]; simp
        · intro t ht
          rw [ha.1, hnil] at ht
          simp at ht
          rw [ha.2.1, ht]
      · exact resetInv_congr _ _ ha.2.2.1 ha.2.2.2.1 hreset
    cases find_next_prayer cfg d now with
    | some p => exact key _ _
    | none => exact key _ _

theorem dedup_eq (name : String) (s s1 : Sys) (h : dedupStep name s = some s1) :
    s1.armedWake = s.armedWake ∧ s1.armedReset = s.armedReset
  ∧ s1.store.unsub_timer = s.store.unsub_timer
  ∧ s1.store.playback_reset_unsub = s.store.playback_reset_unsub
  ∧ s1.nextId = s.nextId
  ∧ s1.store.audio_file = s.store.audio_file
  ∧ s1.store.fajr_audio_file = s.store.fajr_audio_file
  ∧ s1.store.is_playing = s.store.is_playing
  ∧ s1.store.currently_playing = s.store.currently_playing := by
  unfold dedupStep at h
  split at h
  · cases h; exact ⟨rfl, rfl, rfl, rfl, rfl, rfl, rfl, rfl, rfl⟩
  · split at h
    · cases h; exact ⟨rfl, rfl, rfl, rfl, rfl, rfl, rfl, rfl, rfl⟩
    · split at h
      · cases h
      · cases h; exact ⟨rfl, rfl, rfl, rfl, rfl, rfl, rfl, rfl, rfl⟩

theorem armReset_spec (s : Sys) (now : Aware) (name : String) :
    (armReset s now name).armedReset = s.armedReset ++ [⟨s.nextId, now.addMinutes 5, name⟩]
  ∧ (armReset s now name).store.playback_reset_unsub = some s.nextId
  ∧ (armReset s now name).armedWake = s.armedWake
  ∧ (armReset s now name).store.unsub_timer = s.store.unsub_timer
  ∧ (armReset s now name).store.data = s.store.data
  ∧ (armReset s now name).nextId = s.nextId + 1 := by
  unfold armReset
  simp

/-- The success tail of `_play_azan` (re-arm reset, then reschedule)
preserves the handle invariant. -/
theorem finish_inv (cfg : Config) (now : Aware) (name : String) (s2 : Sys)
    (h : handleInv s2) :
    handleInv (schedule_next_prayer cfg now (armReset (cancelReset s2) now name)) := by
  apply schedule_inv
  have hcr := cancelReset_frame s2
  have hnil := cancelReset_reset_nil s2 h.2
  have ha := armReset_spec (cancelReset s2) now name
  constructor
  · apply wakeInv_congr s2
    · rw [ha.2.2.1, hcr.1]
    · rw [ha.2.2.2.1]
      exact congrArg Store.unsub_timer hcr.2.1
    · exact h.1
  · constructor
    · rw [ha.1, hnil]; simp
    · intro t ht
      rw [ha.1, hnil] at ht
      simp at ht
      rw [ha.2.1, ht]

theorem play_inv (cfg : Config) (ex : String → Bool) (fail : Bool) (now : Aware)
    (name : String) (s : Sys) (h : handleInv s) :
    handleInv (play_azan cfg ex fail now name s).sys := by
  unfold play_azan
  split
  · exact h
  next s1 hd =>
    have hde := dedup_eq name s s1 hd
    have h1 : handleInv s1 :=
      handleInv_congr s s1 hde.1 hde.2.1 hde.2.2.1 hde.2.2.2.1 h
    split
    · exact h1
    next f ha =>
      have h2 : handleInv (setPlaying s1 name) :=
        handleInv_congr s1 _ rfl rfl rfl rfl h1
      split
      · split
        · split
          · exact h2
          · split
            · exact handleInv_congr _ _ rfl rfl rfl rfl h2
            · exact finish_inv cfg now name _ h2
        · split
          · exact h2
          · split
            · exact handleInv_congr _ _ rfl rfl rfl rfl h2
            · exact finish_inv cfg now name _ h2
      · exact h1

theorem reset_playing_frame (name : String) (st : Store) :
    (reset_playing name st).unsub_timer = st.unsub_timer
  ∧ (reset_playing name st).playback_reset_unsub = st.playback_reset_unsub
  ∧ (reset_playing name st).data = st.data
  ∧ (reset_playing name st).audio_file = st.audio_file
  ∧ (reset_playing name st).fajr_audio_file = st.fajr_audio_file := by
  unfold reset_playing
  split <;> simp

theorem fireReset_inv (i : Nat) (s : Sys) (h : handleInv s) :
    handleInv (fireReset i s) := by
  unfold fireReset
  cases hf : s.armedReset.find? (fun t => t.id == i) with
  | none => exact h
  | some t =>
    constructor
    · exact wakeInv_congr s _ rfl (reset_playing_frame t.name s.store).1 h.1
    · constructor
      · exact le_trans (List.length_filter_le _ _) h.2.1
      · intro u hu
        have hmem : u ∈ s.armedReset := List.mem_of_mem_filter hu
        rw [(reset_playing_frame t.name s.store).2.1]
        exact h.2.2 u hmem

theorem prayer_cb_inv (cfg : Config) (ex : String → Bool) (fail : Bool) (now : Aware)
    (name : String) (s : Sys) (h : handleInv s) :
    handleInv (prayer_callback cfg ex fail now name s) := by
  unfold prayer_callback
  split
  · split
    · exact schedule_inv cfg now s h
    · exact play_inv cfg ex fail now name s h
  · exact play_inv cfg ex fail now name s h

theorem fireWake_inv (cfg : Config) (ex : String → Bool) (fail : Bool)
    (nd : Option CoordData) (now : Aware) (i : Nat) (s : Sys) (h : handleInv s) :
    handleInv (fireWake cfg ex fail nd now i s) := by
  unfold fireWake
  split
  · exact h
  next t hf =>
    have h1 : handleInv { s with armedWake := s.armedWake.filter (fun u => u.id != i) } := by
      constructor
      · exact ⟨le_trans (List.length_filter_le _ _) h.1.1,
          fun u hu => h.1.2 u (List.mem_of_mem_filter hu)⟩
      · exact resetInv_congr s _ rfl rfl h.2
    cases t.binding with
    | prayerCb nm => exact prayer_cb_inv cfg ex fail now nm _ h1
    | midnightRefresh =>
      exact handleInv_congr _ _ rfl rfl rfl rfl (schedule_inv cfg now _ h1)

theorem stepOp_inv (cfg : Config) (s : Sys) (op : Op) (h : handleInv s) :
    handleInv (stepOp cfg s op) := by
  cases op with
  | trigger name ex fail now => exact play_inv cfg ex fail now name s h
  | stop => exact handleInv_congr s _ rfl rfl rfl rfl h
  | refresh nd now =>
    exact schedule_inv cfg now _ (handleInv_congr s _ rfl rfl rfl rfl h)
  | audioReady a f => exact handleInv_congr s _ rfl rfl rfl rfl h
  | wakeFire i ex fail nd now => exact fireWake_inv cfg ex fail nd now i s h
  | resetFire i => exact fireReset_inv i s h

theorem runOps_inv (cfg : Config) (ops : List Op) :
    ∀ s : Sys, handleInv s → handleInv (runOps cfg ops s) := by
  induction ops with
  | nil => intro s h; exact h
  | cons op rest ih =>
    intro s h
    exact ih (stepOp cfg s op) (stepOp_inv cfg s op h)

theorem init_inv (cfg : Config) (d0 : Option CoordData) (now : Aware) :
    handleInv (initSys cfg d0 now) := by
  apply schedule_inv
  exact ⟨⟨by simp, by intro t ht; simp at ht⟩, ⟨by simp, by intro t ht; simp at ht⟩⟩

-- Claim theorems

/-- C7: after any sequence of trigger, stop, refresh, audio-download and
timer-fire operations from setup, at most one wake-up timer and at most
one playback-reset timer are physically armed, because every arming
site first cancels the stored handle of the same kind. -/
theorem runOps_at_most_one_timer (cfg : Config) (d0 : Option CoordData) (now : Aware)
    (ops : List Op) : atMostOneTimer (runOps cfg ops (initSys cfg d0 now)) := by
  have h := runOps_inv cfg ops (initSys cfg d0 now) (init_inv cfg d0 now)
  exact ⟨h.1.1, h.2.1⟩

/-- C5 counterexample: `_stop_playback` never touches
`playback_reset_unsub`: with the reset timer for Dhuhr armed, it is
still armed after the stop, refuting "cancels the armed
playback-reset timer". -/
theorem stop_playback_reset_timer_not_cancelled :
    (stop_playback sysR).armedReset = [⟨3, ⟨725, 0⟩, "Dhuhr"⟩]
  ∧ sysR.armedReset = [⟨3, ⟨725, 0⟩, "Dhuhr"⟩]
  ∧ (stop_playback sysR).store.playback_reset_unsub = some 3 := by
  decide

/-- C5 (amended): `_stop_playback` sets the playback status to Idle and
leaves everything else unchanged — in particular the armed reset timer
is NOT cancelled, the wake-up timer is untouched, no reschedule
happens, and `played_today` is unmodified. -/
theorem stop_playback_frame (s : Sys) :
    (stop_playback s).store.is_playing = false
  ∧ (stop_playback s).store.currently_playing = none
  ∧ (stop_playback s).armedWake = s.armedWake
  ∧ (stop_playback s).armedReset = s.armedReset
  ∧ (stop_playback s).store.unsub_timer = s.store.unsub_timer
  ∧ (stop_playback s).store.playback_reset_unsub = s.store.playback_reset_unsub
  ∧ (stop_playback s).store.data = s.store.data
  ∧ (stop_playback s).store.audio_file = s.store.audio_file
  ∧ (stop_playback s).store.fajr_audio_file = s.store.fajr_audio_file
  ∧ (stop_playback s).nextId = s.nextId :=
  ⟨rfl, rfl, rfl, rfl, rfl, rfl, rfl, rfl, rfl, rfl⟩

/-- C8: a reset timer whose bound prayer name is no longer the currently
playing one fires without any state transition: the store is unchanged. -/
theorem fireReset_stale_noop (i : Nat) (s : Sys) (t : ResetTimer)
    (hf : s.armedReset.find? (fun u => u.id == i) = some t)
    (hst : s.store.currently_playing ≠ some t.name) :
    (fireReset i s).store = s.store := by
  unfold fireReset
  rw [hf]
  show reset_playing t.name s.store = s.store
  unfold reset_playing
  rw [if_neg hst]

theorem fireReset_stale_noop_witness :
    sysStale.armedReset.find? (fun u => u.id == 3) = some ⟨3, ⟨1090, 0⟩, "Maghrib"⟩
  ∧ sysStale.store.currently_playing ≠ some "Maghrib"
  ∧ (fireReset 3 sysStale).store = sysStale.store :=
  ⟨by decide, by decide,
    fireReset_stale_noop 3 sysStale ⟨3, ⟨1090, 0⟩, "Maghrib"⟩ (by decide) (by decide)⟩

/-- C1 (bug trace): the armed wake-up fires for Maghrib, the dedup guard
marks it played, the external playback call fails — and no new wake-up
timer is armed afterwards: the exception handler of `_play_azan`
returns without calling `_schedule_next_prayer`, so nothing re-arms
(the stored handle is left dangling on the consumed timer). -/
theorem fireWake_sink_failure_no_new_wakeup :
    (fireWake cfgA exYes true none nowE 7 sysE).armedWake = []
  ∧ (fireWake cfgA exYes true none nowE 7 sysE).store.unsub_timer = some 7
  ∧ (fireWake cfgA exYes true none nowE 7 sysE).store.data =
      some ⟨tableE.prayers, ["Maghrib"]⟩
  ∧ (fireWake cfgA exYes true none nowE 7 sysE).store.is_playing = false := by
  decide

/-- C6 (bug trace): in media-player mode with no media player entity
configured, `_play_azan` marks the status Playing before dispatching,
then returns from inside the try block: no playback is ever issued, no
reset timer is armed, and the status stays Playing. -/
theorem play_azan_no_media_player_stuck_playing :
    (play_azan cfgNoMp exYes false nowA "Test" sysT).sys.store.is_playing = true
  ∧ (play_azan cfgNoMp exYes false nowA "Test" sysT).sys.store.currently_playing
      = some "Test"
  ∧ (play_azan cfgNoMp exYes false nowA "Test" sysT).dispatched = false
  ∧ (play_azan cfgNoMp exYes false nowA "Test" sysT).sys.armedReset = []
  ∧ (play_azan cfgNoMp exYes false nowA "Test" sysT).sys.armedWake = [] := by
  decide

theorem handleInv_of_empty (s : Sys) (hw : s.armedWake = []) (hr : s.armedReset = []) :
    handleInv s :=
  ⟨⟨by rw [hw]; simp, by intro t ht; rw [hw] at ht; simp at ht⟩,
    ⟨by rw [hr]; simp, by intro t ht; rw [hr] at ht; simp at ht⟩⟩

/-- C3: with a table present, `_schedule_next_prayer` selects the first
listed prayer that is enabled, unplayed, and whose timezone-normalized
scheduled time minus the offset is still after now, and arms the
wake-up timer at exactly that offset-adjusted target, bound to that
prayer's name. -/
theorem schedule_first_eligible (cfg : Config) (now : Aware) (s : Sys) (d : CoordData)
    (p : Prayer) (hd : s.store.data = some d) (hinv : handleInv s)
    (hp : find_next_prayer cfg d now = some p) :
    (p.enabled = true ∧ p.name ∉ d.played_today
      ∧ now.instant < (targetOf p cfg.offset_minutes now.tz).instant)
  ∧ (∃ l1 l2, d.prayers = l1 ++ p :: l2 ∧ ∀ q ∈ l1, eligible cfg d now q = false)
  ∧ (targetOf p cfg.offset_minutes now.tz).wall = p.time.wall - cfg.offset_minutes
  ∧ (targetOf p cfg.offset_minutes now.tz).tz = p.time.tz.getD now.tz
  ∧ (schedule_next_prayer cfg now s).armedWake =
      [⟨s.nextId, targetOf p cfg.offset_minutes now.tz, WakeBinding.prayerCb p.name⟩]
  ∧ (schedule_next_prayer cfg now s).store.unsub_timer = some s.nextId := by
  have hel : eligible cfg d now p = true := List.find?_some hp
  have h1 : p.enabled = true ∧ p.name ∉ d.played_today
      ∧ now.instant < (targetOf p cfg.offset_minutes now.tz).instant := by
    unfold eligible at hel
    simp only [Bool.and_eq_true, decide_eq_true_eq] at hel
    exact ⟨hel.1.1, hel.1.2, hel.2⟩
  have h2 := find_first (eligible cfg d now) d.prayers p hp
  have h3 := schedule_armed cfg now s d hd hinv
  rw [hp] at h3
  refine ⟨h1, ?_, rfl, rfl, h3.1, h3.2⟩
  obtain ⟨l1, l2, hs, _, hprev⟩ := h2
  exact ⟨l1, l2, hs, hprev⟩

theorem schedule_first_eligible_witness :
    sysA.store.data = some tableA
  ∧ handleInv sysA
  ∧ find_next_prayer cfgA tableA nowA = some ⟨"Fajr", ⟨300, none⟩, true⟩
  ∧ (schedule_next_prayer cfgA nowA sysA).armedWake =
      [⟨0, ⟨290, 0⟩, WakeBinding.prayerCb "Fajr"⟩]
  ∧ (schedule_next_prayer cfgA nowA sysA).store.unsub_timer = some 0 :=
  ⟨rfl, handleInv_of_empty sysA rfl rfl, by decide,
    (schedule_first_eligible cfgA nowA sysA tableA ⟨"Fajr", ⟨300, none⟩, true⟩ rfl
      (handleInv_of_empty sysA rfl rfl) (by decide)).2.2.2.2.1,
    (schedule_first_eligible cfgA nowA sysA tableA ⟨"Fajr", ⟨300, none⟩, true⟩ rfl
      (handleInv_of_empty sysA rfl rfl) (by decide)).2.2.2.2.2⟩

/-- C9: with a table present and no eligible prayer left,
`_schedule_next_prayer` arms the wake-up timer at 00:01 of the next
calendar day and binds it to the midnight-refresh action, whose firing
reschedules and replaces the table with the refreshed one — not to a
playback action. -/
theorem schedule_rollover_midnight (cfg : Config) (now now2 : Aware) (s : Sys)
    (d : CoordData) (ex2 : String → Bool) (fail2 : Bool) (nd : Option CoordData)
    (hd : s.store.data = some d) (hinv : handleInv s)
    (hn : find_next_prayer cfg d now = none) :
    (schedule_next_prayer cfg now s).armedWake =
      [⟨s.nextId, rolloverTime now, WakeBinding.midnightRefresh⟩]
  ∧ (rolloverTime now).wall = 1440 * (now.wall / 1440 + 1) + 1
  ∧ (rolloverTime now).tz = now.tz
  ∧ fireWake cfg ex2 fail2 nd now2 s.nextId (schedule_next_prayer cfg now s) =
      setData (schedule_next_prayer cfg now2
        { schedule_next_prayer cfg now s with armedWake := [] }) nd := by
  have h3 := schedule_armed cfg now s d hd hinv
  rw [hn] at h3
  have harm : (schedule_next_prayer cfg now s).armedWake =
      [⟨s.nextId, rolloverTime now, WakeBinding.midnightRefresh⟩] := h3.1
  refine ⟨harm, ?_, rfl, ?_⟩
  · unfold rolloverTime
    have hq : (now.wall + 1440) / 1440 = now.wall / 1440 + 1 := by omega
    show (now.wall + 1440) / 1440 * 1440 + 1 = 1440 * (now.wall / 1440 + 1) + 1
    rw [hq]
    ring
  · unfold fireWake
    rw [harm]
    rw [List.find?_cons_of_pos _ (by simp)]
    have hfil : ([⟨s.nextId, rolloverTime now, WakeBinding.midnightRefresh⟩] :
        List WakeTimer).filter (fun u => u.id != s.nextId) = [] := by simp
    rw [hfil]

theorem schedule_rollover_midnight_witness :
    sysC.store.data = some tableC
  ∧ handleInv sysC
  ∧ find_next_prayer cfgA tableC nowC = none
  ∧ (schedule_next_prayer cfgA nowC sysC).armedWake =
      [⟨0, ⟨1441, 0⟩, WakeBinding.midnightRefresh⟩] :=
  ⟨rfl, handleInv_of_empty sysC rfl rfl, by decide,
    (schedule_rollover_midnight cfgA nowC nowC sysC tableC exYes false none rfl
      (handleInv_of_empty sysC rfl rfl) (by decide)).1⟩

theorem dedupStep_test (name : String) (s : Sys) (h : name = "Test") :
    dedupStep name s = some s := by
  unfold dedupStep
  rw [if_pos h]

theorem dedupStep_dup (name : String) (s : Sys) (d : CoordData)
    (hname : name ≠ "Test") (hd : s.store.data = some d)
    (hmem : name ∈ d.played_today) : dedupStep name s = none := by
  unfold dedupStep
  rw [if_neg hname, hd]
  dsimp only
  rw [if_pos hmem]

theorem dedupStep_new (name : String) (s : Sys) (d : CoordData)
    (hname : name ≠ "Test") (hd : s.store.data = some d)
    (hmem : name ∉ d.played_today) :
    dedupStep name s = some { s with store := { s.store with
      data := some { d with played_today := name :: d.played_today } } } := by
  unfold dedupStep
  rw [if_neg hname, hd]
  dsimp only
  rw [if_neg hmem]

theorem selectAudio_congr (st st' : Store) (name : String)
    (h1 : st'.audio_file = st.audio_file)
    (h2 : st'.fajr_audio_file = st.fajr_audio_file) :
    selectAudio st' name = selectAudio st name := by
  unfold selectAudio
  rw [h1, h2]

/-- `_play_azan` never writes `coordinator.data` after the dedup guard. -/
theorem play_data (cfg : Config) (ex : String → Bool) (fail : Bool) (now : Aware)
    (name : String) (s s1 : Sys) (hd : dedupStep name s = some s1) :
    (play_azan cfg ex fail now name s).sys.store.data = s1.store.data := by
  unfold play_azan
  rw [hd]
  dsimp only
  split
  · rfl
  next f ha =>
    split
    · split
      · split
        · rfl
        · split
          · rfl
          · have h1 := (schedule_frame cfg now
              (armReset (cancelReset (setPlaying s1 name)) now name)).2.2.1
            have h2 := (armReset_spec (cancelReset (setPlaying s1 name)) now name).2.2.2.2.1
            have h3 := congrArg Store.data (cancelReset_frame (setPlaying s1 name)).2.1
            exact h1.trans (h2.trans (h3.trans rfl))
      · split
        · rfl
        · split
          · rfl
          · have h1 := (schedule_frame cfg now
              (armReset (cancelReset (setPlaying s1 name)) now name)).2.2.1
            have h2 := (armReset_spec (cancelReset (setPlaying s1 name)) now name).2.2.2.2.1
            have h3 := congrArg Store.data (cancelReset_frame (setPlaying s1 name)).2.1
            exact h1.trans (h2.trans (h3.trans rfl))
    · rfl

/-- With no usable audio file the call returns right after the guard. -/
theorem play_no_audio (cfg : Config) (ex : String → Bool) (fail : Bool) (now : Aware)
    (name : String) (s s1 : Sys) (hd : dedupStep name s = some s1)
    (h : selectAudio s1.store name = none ∨
      ∀ f, selectAudio s1.store name = some f → ex f = false) :
    play_azan cfg ex fail now name s = ⟨s1, false, none⟩ := by
  unfold play_azan
  rw [hd]
  dsimp only
  cases hsel : selectAudio s1.store name with
  | none => rfl
  | some f =>
    rcases h with h | h
    · rw [hsel] at h
      cases h
    · have hf := h f hsel
      dsimp only
      rw [if_neg (by rw [hf]; exact Bool.false_ne_true)]

/-- The media-player failure path of `_play_azan`. -/
theorem play_mp_fail (cfg : Config) (ex : String → Bool) (now : Aware)
    (name : String) (s s1 : Sys) (f m : String)
    (hd : dedupStep name s = some s1)
    (hsel : selectAudio s1.store name = some f)
    (hex : ex f = true)
    (hmode : cfg.playback_mode = PlaybackMode.mediaPlayer)
    (hmp : cfg.media_player = some m) :
    play_azan cfg ex true now name s = ⟨clearPlaying (setPlaying s1 name), true, some f⟩ := by
  unfold play_azan
  rw [hd]
  dsimp only
  rw [hsel]
  dsimp only
  rw [if_pos hex, hmode]
  dsimp only
  rw [hmp]
  rfl

/-- The media-player path always dispatches once configured. -/
theorem play_mp_dispatch (cfg : Config) (ex : String → Bool) (fail : Bool) (now : Aware)
    (name : String) (s s1 : Sys) (f m : String)
    (hd : dedupStep name s = some s1)
    (hsel : selectAudio s1.store name = some f)
    (hex : ex f = true)
    (hmode : cfg.playback_mode = PlaybackMode.mediaPlayer)
    (hmp : cfg.media_player = some m) :
    (play_azan cfg ex fail now name s).dispatched = true := by
  unfold play_azan
  rw [hd]
  dsimp only
  rw [hsel]
  dsimp only
  rw [if_pos hex, hmode]
  dsimp only
  rw [hmp]
  dsimp only
  split <;> rfl

/-- A duplicate real prayer returns before any other effect. -/
theorem play_dedup_none (cfg : Config) (ex : String → Bool) (fail : Bool) (now : Aware)
    (name : String) (s : Sys) (hd : dedupStep name s = none) :
    play_azan cfg ex fail now name s = ⟨s, false, none⟩ := by
  unfold play_azan
  rw [hd]

/-- Media-player mode without a configured entity: the return at line
323 happens after the status was already marked Playing. -/
theorem play_mp_unconfigured (cfg : Config) (ex : String → Bool) (fail : Bool)
    (now : Aware) (name : String) (s s1 : Sys) (f : String)
    (hd : dedupStep name s = some s1)
    (hsel : selectAudio s1.store name = some f)
    (hex : ex f = true)
    (hmode : cfg.playback_mode = PlaybackMode.mediaPlayer)
    (hmp : cfg.media_player = none) :
    play_azan cfg ex fail now name s = ⟨setPlaying s1 name, false, none⟩ := by
  unfold play_azan
  rw [hd]
  dsimp only
  rw [hsel]
  dsimp only
  rw [if_pos hex, hmode]
  dsimp only
  rw [hmp]

/-- Android-VLC mode without a configured notify service (line 339). -/
theorem play_vlc_unconfigured (cfg : Config) (ex : String → Bool) (fail : Bool)
    (now : Aware) (name : String) (s s1 : Sys) (f : String)
    (hd : dedupStep name s = some s1)
    (hsel : selectAudio s1.store name = some f)
    (hex : ex f = true)
    (hmode : cfg.playback_mode = PlaybackMode.androidVlc)
    (hns : cfg.notify_service = none) :
    play_azan cfg ex fail now name s = ⟨setPlaying s1 name, false, none⟩ := by
  unfold play_azan
  rw [hd]
  dsimp only
  rw [hsel]
  dsimp only
  rw [if_pos hex, hmode]
  dsimp only
  rw [hns]

/-- The android-VLC failure path of `_play_azan`. -/
theorem play_vlc_fail (cfg : Config) (ex : String → Bool) (now : Aware)
    (name : String) (s s1 : Sys) (f m : String)
    (hd : dedupStep name s = some s1)
    (hsel : selectAudio s1.store name = some f)
    (hex : ex f = true)
    (hmode : cfg.playback_mode = PlaybackMode.androidVlc)
    (hns : cfg.notify_service = some m) :
    play_azan cfg ex true now name s = ⟨clearPlaying (setPlaying s1 name), true, some f⟩ := by
  unfold play_azan
  rw [hd]
  dsimp only
  rw [hsel]
  dsimp only
  rw [if_pos hex, hmode]
  dsimp only
  rw [hns]
  rfl

/-- The android-VLC path always dispatches once configured. -/
theorem play_vlc_dispatch (cfg : Config) (ex : String → Bool) (fail : Bool) (now : Aware)
    (name : String) (s s1 : Sys) (f m : String)
    (hd : dedupStep name s = some s1)
    (hsel : selectAudio s1.store name = some f)
    (hex : ex f = true)
    (hmode : cfg.playback_mode = PlaybackMode.androidVlc)
    (hns : cfg.notify_service = some m) :
    (play_azan cfg ex fail now name s).dispatched = true := by
  unfold play_azan
  rw [hd]
  dsimp only
  rw [hsel]
  dsimp only
  rw [if_pos hex, hmode]
  dsimp only
  rw [hns]
  dsimp only
  split <;> rfl

/-- When the playback call is dispatched, it is dispatched with exactly
the selected audio file. -/
theorem play_file_eq (cfg : Config) (ex : String → Bool) (fail : Bool) (now : Aware)
    (name : String) (s : Sys) :
    (play_azan cfg ex fail now name s).dispatched = true →
    (play_azan cfg ex fail now name s).file = selectAudio s.store name := by
  unfold play_azan
  split
  · intro hdis
    exact Bool.noConfusion hdis
  next s1 hd =>
    have hde := dedup_eq name s s1 hd
    have hsel : selectAudio s1.store name = selectAudio s.store name :=
      selectAudio_congr s.store s1.store name hde.2.2.2.2.2.1 hde.2.2.2.2.2.2.1
    split
    · intro hdis
      exact Bool.noConfusion hdis
    next f ha =>
      split
      · split
        · split
          · intro hdis
            exact Bool.noConfusion hdis
          · split
            · intro _
              exact (hsel.symm.trans ha).symm
            · intro _
              exact (hsel.symm.trans ha).symm
        · split
          · intro hdis
            exact Bool.noConfusion hdis
          · split
            · intro _
              exact (hsel.symm.trans ha).symm
            · intro _
              exact (hsel.symm.trans ha).symm
      · intro hdis
        exact Bool.noConfusion hdis

/-- C2: the dedup guard of `_play_azan`: a real prayer already played
returns unchanged with no dispatch; a real unplayed prayer is marked
played on every continuation path, so the mark precedes any dispatch;
"Test" never mutates the played set and, whenever audio file, mode and
player are available, still proceeds to dispatch. -/
theorem play_azan_dedup_guard (cfg : Config) (ex : String → Bool) (fail : Bool)
    (now : Aware) (name : String) (s : Sys) (d : CoordData)
    (hd : s.store.data = some d) :
    (name ≠ "Test" → name ∈ d.played_today →
      play_azan cfg ex fail now name s = ⟨s, false, none⟩)
  ∧ (name ≠ "Test" → name ∉ d.played_today →
      (play_azan cfg ex fail now name s).sys.store.data =
        some { d with played_today := name :: d.played_today })
  ∧ (name = "Test" → (play_azan cfg ex fail now name s).sys.store.data = some d)
  ∧ (∀ f m, name = "Test" → selectAudio s.store name = some f → ex f = true →
      cfg.playback_mode = PlaybackMode.mediaPlayer → cfg.media_player = some m →
      (play_azan cfg ex fail now name s).dispatched = true) := by
  refine ⟨?_, ?_, ?_, ?_⟩
  · intro hname hmem
    unfold play_azan
    rw [dedupStep_dup name s d hname hd hmem]
  · intro hname hmem
    have hnew := dedupStep_new name s d hname hd hmem
    rw [play_data cfg ex fail now name s _ hnew]
  · intro htest
    rw [play_data cfg ex fail now name s s (dedupStep_test name s htest), hd]
  · intro f m htest hsel hex hmode hmp
    exact play_mp_dispatch cfg ex fail now name s s f m (dedupStep_test name s htest)
      hsel hex hmode hmp

theorem play_azan_dedup_guard_witness :
    sysC.store.data = some tableC
  ∧ play_azan cfgA exYes false nowC "Dhuhr" sysC = ⟨sysC, false, none⟩
  ∧ (play_azan cfgA exYes false nowA "Test" sysA).sys.store.data = some tableA
  ∧ (play_azan cfgA exYes false nowA "Test" sysA).dispatched = true :=
  ⟨rfl,
    (play_azan_dedup_guard cfgA exYes false nowC "Dhuhr" sysC tableC rfl).1
      (by decide) (by decide),
    (play_azan_dedup_guard cfgA exYes false nowA "Test" sysA tableA rfl).2.2.1 rfl,
    (play_azan_dedup_guard cfgA exYes false nowA "Test" sysA tableA rfl).2.2.2
      "azan.mp3" "media_player.den" rfl (by decide) rfl rfl rfl⟩

/-- C4: whichever playback mode is configured, when the external
playback call raised by `_play_azan` fails, the playback status returns
to Idle immediately (is_playing false, currently_playing cleared) and
the dedup mark recorded for a real prayer is not rolled back; and with
an unplayed name, a usable audio file and the configured mode's target
entity present, the failing call is indeed dispatched. -/
theorem play_azan_sink_failure_idle (cfg : Config) (ex : String → Bool) (now : Aware)
    (name : String) (s : Sys) (d : CoordData)
    (hd : s.store.data = some d) :
    ((play_azan cfg ex true now name s).dispatched = true →
      (play_azan cfg ex true now name s).sys.store.is_playing = false
    ∧ (play_azan cfg ex true now name s).sys.store.currently_playing = none
    ∧ (name ≠ "Test" → name ∉ d.played_today ∧
        (play_azan cfg ex true now name s).sys.store.data =
          some { d with played_today := name :: d.played_today }))
  ∧ (∀ f, name ∉ d.played_today → selectAudio s.store name = some f → ex f = true →
      sinkConfigured cfg = true →
      (play_azan cfg ex true now name s).dispatched = true) := by
  constructor
  · cases hdd : dedupStep name s with
    | none =>
      rw [play_dedup_none cfg ex true now name s hdd]
      intro hdis
      exact Bool.noConfusion hdis
    | some s1 =>
      have hkept : name ≠ "Test" → name ∉ d.played_today ∧
          s1.store.data = some { d with played_today := name :: d.played_today } := by
        intro htest
        by_cases hmem : name ∈ d.played_today
        · exact absurd ((dedupStep_dup name s d htest hd hmem).symm.trans hdd)
            (fun hc => Option.noConfusion hc)
        · have hs1 := Option.some.inj ((dedupStep_new name s d htest hd hmem).symm.trans hdd)
          exact ⟨hmem, by rw [← hs1]⟩
      cases hsel : selectAudio s1.store name with
      | none =>
        rw [play_no_audio cfg ex true now name s s1 hdd (Or.inl hsel)]
        intro hdis
        exact Bool.noConfusion hdis
      | some f =>
        by_cases hex : ex f = true
        · cases hmode : cfg.playback_mode with
          | mediaPlayer =>
            cases hmp : cfg.media_player with
            | none =>
              rw [play_mp_unconfigured cfg ex true now name s s1 f hdd hsel hex hmode hmp]
              intro hdis
              exact Bool.noConfusion hdis
            | some m =>
              rw [play_mp_fail cfg ex now name s s1 f m hdd hsel hex hmode hmp]
              intro _
              exact ⟨rfl, rfl, fun htest => ⟨(hkept htest).1, (hkept htest).2⟩⟩
          | androidVlc =>
            cases hns : cfg.notify_service with
            | none =>
              rw [play_vlc_unconfigured cfg ex true now name s s1 f hdd hsel hex hmode hns]
              intro hdis
              exact Bool.noConfusion hdis
            | some m =>
              rw [play_vlc_fail cfg ex now name s s1 f m hdd hsel hex hmode hns]
              intro _
              exact ⟨rfl, rfl, fun htest => ⟨(hkept htest).1, (hkept htest).2⟩⟩
        · have hexf : ex f = false := by
            cases hexb : ex f
            · rfl
            · exact absurd hexb hex
          have hall : ∀ g, selectAudio s1.store name = some g → ex g = false := by
            intro g hg
            have hfg : f = g := Option.some.inj (hsel.symm.trans hg)
            rw [← hfg]
            exact hexf
          rw [play_no_audio cfg ex true now name s s1 hdd (Or.inr hall)]
          intro hdis
          exact Bool.noConfusion hdis
  · intro f hnp hsel hex hconf
    by_cases htest : name = "Test"
    · have hdd := dedupStep_test name s htest
      cases hmode : cfg.playback_mode with
      | mediaPlayer =>
        have hconf1 : cfg.media_player.isSome = true := by
          unfold sinkConfigured at hconf
          rw [hmode] at hconf
          exact hconf
        obtain ⟨m, hm⟩ := Option.isSome_iff_exists.mp hconf1
        exact play_mp_dispatch cfg ex true now name s s f m hdd hsel hex hmode hm
      | androidVlc =>
        have hconf1 : cfg.notify_service.isSome = true := by
          unfold sinkConfigured at hconf
          rw [hmode] at hconf
          exact hconf
        obtain ⟨m, hm⟩ := Option.isSome_iff_exists.mp hconf1
        exact play_vlc_dispatch cfg ex true now name s s f m hdd hsel hex hmode hm
    · have hdd := dedupStep_new name s d htest hd hnp
      have hsel1 : selectAudio ({ s with store := { s.store with
          data := some { d with played_today := name :: d.played_today } } } : Sys).store name
          = some f := by
        have hcg := selectAudio_congr s.store ({ s with store := { s.store with
          data := some { d with played_today := name :: d.played_today } } } : Sys).store
          name rfl rfl
        rw [hcg]
        exact hsel
      cases hmode : cfg.playback_mode with
      | mediaPlayer =>
        have hconf1 : cfg.media_player.isSome = true := by
          unfold sinkConfigured at hconf
          rw [hmode] at hconf
          exact hconf
        obtain ⟨m, hm⟩ := Option.isSome_iff_exists.mp hconf1
        exact play_mp_dispatch cfg ex true now name s _ f m hdd hsel1 hex hmode hm
      | androidVlc =>
        have hconf1 : cfg.notify_service.isSome = true := by
          unfold sinkConfigured at hconf
          rw [hmode] at hconf
          exact hconf
        obtain ⟨m, hm⟩ := Option.isSome_iff_exists.mp hconf1
        exact play_vlc_dispatch cfg ex true now name s _ f m hdd hsel1 hex hmode hm

theorem play_azan_sink_failure_idle_witness :
    sysE.store.data = some tableE
  ∧ (play_azan cfgV exYes true nowE "Maghrib" sysE).dispatched = true
  ∧ (play_azan cfgV exYes true nowE "Maghrib" sysE).sys.store.is_playing = false
  ∧ (play_azan cfgV exYes true nowE "Maghrib" sysE).sys.store.currently_playing = none
  ∧ (play_azan cfgV exYes true nowE "Maghrib" sysE).sys.store.data =
      some { tableE with played_today := "Maghrib" :: tableE.played_today } :=
  ⟨rfl,
    (play_azan_sink_failure_idle cfgV exYes nowE "Maghrib" sysE tableE rfl).2 "azan.mp3"
      (by decide) (by decide) rfl rfl,
    ((play_azan_sink_failure_idle cfgV exYes nowE "Maghrib" sysE tableE rfl).1 (by decide)).1,
    ((play_azan_sink_failure_idle cfgV exYes nowE "Maghrib" sysE tableE rfl).1 (by decide)).2.1,
    (((play_azan_sink_failure_idle cfgV exYes nowE "Maghrib" sysE tableE rfl).1
      (by decide)).2.2 (by decide)).2⟩

/-- C10: the audio file used by `_play_azan` is the Fajr-specific file
exactly when the prayer is Fajr and a Fajr file is stored, the general
azan file otherwise; if the selected file is unset or absent on disk
the call returns with no dispatch and no Playing transition, while a
real prayer's freshly recorded dedup claim is kept. -/
theorem play_azan_audio_selection (cfg : Config) (ex : String → Bool) (fail : Bool)
    (now : Aware) (name : String) (s : Sys) (d : CoordData)
    (hd : s.store.data = some d) :
    ((play_azan cfg ex fail now name s).dispatched = true →
      (play_azan cfg ex fail now name s).file = selectAudio s.store name)
  ∧ (∀ g, s.store.fajr_audio_file = some g → name = "Fajr" →
      selectAudio s.store name = some g)
  ∧ (s.store.fajr_audio_file = none ∨ name ≠ "Fajr" →
      selectAudio s.store name = s.store.audio_file)
  ∧ ((selectAudio s.store name = none ∨
        ∀ f, selectAudio s.store name = some f → ex f = false) →
      (play_azan cfg ex fail now name s).dispatched = false
    ∧ (play_azan cfg ex fail now name s).sys.store.is_playing = s.store.is_playing
    ∧ (play_azan cfg ex fail now name s).sys.store.currently_playing
        = s.store.currently_playing
    ∧ (name ≠ "Test" → name ∉ d.played_today →
        (play_azan cfg ex fail now name s).sys.store.data =
          some { d with played_today := name :: d.played_today })) := by
  refine ⟨play_file_eq cfg ex fail now name s, ?_, ?_, ?_⟩
  · intro g hg hf
    unfold selectAudio
    rw [hg]
    dsimp only
    rw [if_pos hf]
  · intro h
    unfold selectAudio
    rcases h with h | h
    · rw [h]
    · cases s.store.fajr_audio_file with
      | none => rfl
      | some g =>
        dsimp only
        rw [if_neg h]
  · intro h
    by_cases htest : name = "Test"
    · have hpl := play_no_audio cfg ex fail now name s s (dedupStep_test name s htest) h
      rw [hpl]
      exact ⟨rfl, rfl, rfl, fun hn => absurd htest hn⟩
    · by_cases hmem : name ∈ d.played_today
      · have hpl : play_azan cfg ex fail now name s = ⟨s, false, none⟩ := by
          unfold play_azan
          rw [dedupStep_dup name s d htest hd hmem]
        rw [hpl]
        exact ⟨rfl, rfl, rfl, fun _ hnp => absurd hmem hnp⟩
      · have hdd := dedupStep_new name s d htest hd hmem
        have h1 : selectAudio ({ s with store := { s.store with
            data := some { d with played_today := name :: d.played_today } } } : Sys).store
            name = selectAudio s.store name :=
          selectAudio_congr s.store ({ s with store := { s.store with
            data := some { d with played_today := name :: d.played_today } } } : Sys).store
            name rfl rfl
        have hpl := play_no_audio cfg ex fail now name s _ hdd (by rw [h1]; exact h)
        rw [hpl]
        exact ⟨rfl, rfl, rfl, fun _ _ => rfl⟩

theorem play_azan_audio_selection_witness :
    sysF.store.data = some tableA
  ∧ selectAudio sysF.store "Fajr" = some "fajr_azan.mp3"
  ∧ selectAudio sysF.store "Dhuhr" = some "azan.mp3"
  ∧ ((play_azan cfgA exYes false nowA "Fajr" sysF).dispatched = true →
      (play_azan cfgA exYes false nowA "Fajr" sysF).file = selectAudio sysF.store "Fajr") :=
  ⟨rfl,
    (play_azan_audio_selection cfgA exYes false nowA "Fajr" sysF tableA rfl).2.1
      "fajr_azan.mp3" rfl rfl,
    by decide,
    (play_azan_audio_selection cfgA exYes false nowA "Fajr" sysF tableA rfl).1⟩
